import Mathlib

set_option maxRecDepth 100000

/-!
Verification of the Git hash-integrity demonstration script
(`05-experiments/hash_integrity_demo.py`).

The script's core primitive is `git_hash_object(obj_type, content)`, which
builds the header `f"{obj_type} {len(content)}\0"`, UTF-8 encodes
`header + content`, and returns the lowercase hex SHA-1 digest of those
bytes.  We embed the byte level faithfully: bytes are `Nat` values `< 256`,
SHA-1 is implemented from FIPS 180 over `List Nat`, and Python's UTF-8
encoding of a `str` is implemented over the string's characters.
-/

/-- The modulus for 32-bit words, `2 ^ 32`. -/
def m32 : Nat := 4294967296

/-- Left rotation of a 32-bit word by `s` bits (for `x < 2 ^ 32`). -/
def rotl (s x : Nat) : Nat := ((x <<< s) ||| (x >>> (32 - s))) % m32

/-- UTF-8 encoding of a single Unicode scalar value, as Python's
`str.encode('utf-8')` produces for one character. -/
def utf8EncodeChar (c : Char) : List Nat :=
  let n := c.toNat
  if n < 128 then [n]
  else if n < 2048 then [192 + n / 64, 128 + n % 64]
  else if n < 65536 then [224 + n / 4096, 128 + (n / 64) % 64, 128 + n % 64]
  else [240 + n / 262144, 128 + (n / 4096) % 64, 128 + (n / 64) % 64, 128 + n % 64]

/-- UTF-8 encoding of a string, as Python's `str.encode('utf-8')`. -/
def utf8Encode (s : String) : List Nat :=
  s.data.flatMap utf8EncodeChar

/-- Big-endian 8-byte encoding of the bit length, for SHA-1 padding. -/
def lenBytes (bl : Nat) : List Nat :=
  [ (bl >>> 56) % 256, (bl >>> 48) % 256, (bl >>> 40) % 256, (bl >>> 32) % 256,
    (bl >>> 24) % 256, (bl >>> 16) % 256, (bl >>> 8) % 256, bl % 256 ]

/-- SHA-1 padding: append `0x80`, zeros to 56 mod 64, then the 64-bit bit length. -/
def sha1Pad (msg : List Nat) : List Nat :=
  msg ++ 128 :: List.replicate ((55 + 64 - msg.length % 64) % 64) 0
      ++ lenBytes (8 * msg.length)

/-- Group a byte list into big-endian 32-bit words. -/
def toWords : List Nat → List Nat
  | a :: b :: c :: d :: rest => (((a * 256 + b) * 256 + c) * 256 + d) :: toWords rest
  | _ => []

/-- The running SHA-1 hash state: five 32-bit words. -/
structure Sha1State where
  h0 : Nat
  h1 : Nat
  h2 : Nat
  h3 : Nat
  h4 : Nat

/-- Round function and constant for SHA-1 round `t` (0-based). -/
def fk (t b c d : Nat) : Nat × Nat :=
  if t < 20 then ((b &&& c) ||| ((b ^^^ 4294967295) &&& d), 1518500249)
  else if t < 40 then (b ^^^ c ^^^ d, 1859775393)
  else if t < 60 then ((b &&& c) ||| (b &&& d) ||| (c &&& d), 2400959708)
  else (b ^^^ c ^^^ d, 3395469782)

/-- One step of the message schedule: the window holds the next 16 words
`w[t] .. w[t+15]`; consume `w[t]` and append
`w[t+16] = rotl1 (w[t+13] xor w[t+8] xor w[t+2] xor w[t])`. -/
def stepWindow : List Nat → List Nat
  | w0 :: w1 :: w2 :: w3 :: w4 :: w5 :: w6 :: w7 :: w8 :: w9 :: w10 :: w11
      :: w12 :: w13 :: w14 :: w15 :: _ =>
    w1 :: w2 :: w3 :: w4 :: w5 :: w6 :: w7 :: w8 :: w9 :: w10 :: w11 :: w12
      :: w13 :: w14 :: w15 :: [rotl 1 (w13 ^^^ w8 ^^^ w2 ^^^ w0)]
  | l => l.tail

/-- The 80 SHA-1 rounds, driven by a fuel counter; `t` is the round index
and `window` the 16-word schedule window. -/
def sha1Loop : Nat → Nat → Nat → Nat → Nat → Nat → Nat → List Nat →
    Nat × Nat × Nat × Nat × Nat
  | 0, _, a, b, c, d, e, _ => (a, b, c, d, e)
  | fuel + 1, t, a, b, c, d, e, window =>
    match window with
    | [] => (a, b, c, d, e)
    | w0 :: _ =>
      match fk t b c d with
      | (f, k) =>
        match (rotl 5 a + f + e + k + w0) % m32 with
        | temp => sha1Loop fuel (t + 1) temp a (rotl 30 b) c d (stepWindow window)

/-- Compress one 16-word block into the hash state. -/
def sha1Block (st : Sha1State) (ws : List Nat) : Sha1State :=
  match sha1Loop 80 0 st.h0 st.h1 st.h2 st.h3 st.h4 ws with
  | (a, b, c, d, e) =>
    ⟨(st.h0 + a) % m32, (st.h1 + b) % m32, (st.h2 + c) % m32,
     (st.h3 + d) % m32, (st.h4 + e) % m32⟩

/-- Fold the compression over successive 16-word blocks. -/
def sha1Blocks : Nat → Sha1State → List Nat → Sha1State
  | 0, st, _ => st
  | fuel + 1, st, ws =>
    match ws with
    | [] => st
    | _ => sha1Blocks fuel (sha1Block st (ws.take 16)) (ws.drop 16)

/-- SHA-1 of a byte list, producing the five-word hash state. -/
def sha1 (msg : List Nat) : Sha1State :=
  let ws := toWords (sha1Pad msg)
  sha1Blocks (ws.length + 1)
    ⟨1732584193, 4023233417, 2562383102, 271733878, 3285377520⟩ ws

/-- The lowercase hex digit for a nibble. -/
def hexDigit (n : Nat) : Char :=
  if n < 10 then Char.ofNat (48 + n) else Char.ofNat (87 + n)

/-- The eight lowercase hex digits of a 32-bit word, most significant first. -/
def wordHex (w : Nat) : List Char :=
  [hexDigit ((w >>> 28) % 16), hexDigit ((w >>> 24) % 16),
   hexDigit ((w >>> 20) % 16), hexDigit ((w >>> 16) % 16),
   hexDigit ((w >>> 12) % 16), hexDigit ((w >>> 8) % 16),
   hexDigit ((w >>> 4) % 16), hexDigit (w % 16)]

/-- Lowercase hexadecimal SHA-1 digest of a byte list, as Python's
`hashlib.sha1(data).hexdigest()`. -/
def sha1Hex (msg : List Nat) : String :=
  match sha1 msg with
  | ⟨a, b, c, d, e⟩ =>
    String.mk (wordHex a ++ wordHex b ++ wordHex c ++ wordHex d ++ wordHex e)

/-- Embedding of the script's core primitive:

    def git_hash_object(obj_type, content):
        header = f"{obj_type} {len(content)}\0"
        full_data = (header + content).encode('utf-8')
        return hashlib.sha1(full_data).hexdigest()

Note `len(content)` counts characters (code points) of the Python `str`,
while the UTF-8 encoding happens afterwards on `header + content`. -/
def git_hash_object (obj_type content : String) : String :=
  let header := obj_type ++ " " ++ toString content.length ++ "\x00"
  let full_data := utf8Encode (header ++ content)
  sha1Hex full_data

example : sha1Hex [] = "da39a3ee5e6b4b0d3255bfef95601890afd80709" := by decide
example : git_hash_object "blob" "" = "e69de29bb2d1d6434b8b29ae775ad8c2e48c5391" := by decide

/-- Python's `str.replace(pat, rep)` on character lists: scan left to right,
replacing non-overlapping occurrences.  The fuel argument bounds the
recursion; with `fuel ≥ s.length` and a nonempty pattern it computes
exactly Python's result. -/
def pyReplace : Nat → List Char → List Char → List Char → List Char
  | 0, s, _, _ => s
  | _ + 1, [], _, _ => []
  | fuel + 1, c :: rest, pat, rep =>
    if pat.isPrefixOf (c :: rest) then
      rep ++ pyReplace fuel ((c :: rest).drop pat.length) pat rep
    else c :: pyReplace fuel rest pat rep

/-- Python's `s.replace(pat, rep)` for strings (nonempty `pat`). -/
def pyStrReplace (s pat rep : String) : String :=
  String.mk (pyReplace s.data.length s.data pat.data rep.data)

/-! ### `demonstrate_integrity_verification` (lines 58-85) -/

/-- The original fibonacci source string of the integrity demo. -/
def original_content : String :=
  "def fibonacci(n):\n    return n if n <= 1 else fibonacci(n-1) + fibonacci(n-2)"

/-- The demo's hash of the original content. -/
def original_hash : String := git_hash_object "blob" original_content

/-- The corrupted string: `original_content.replace("fibonacci", "fibonaci")`. -/
def corrupted_content : String := pyStrReplace original_content "fibonacci" "fibonaci"

/-- The demo's hash of the corrupted content. -/
def corrupted_hash : String := git_hash_object "blob" corrupted_content

/-- The local helper of `demonstrate_integrity_verification`:

    def verify_integrity(expected_hash, content):
        actual_hash = git_hash_object("blob", content)
        return actual_hash == expected_hash
-/
def verify_integrity (expected_hash content : String) : Bool :=
  git_hash_object "blob" content == expected_hash

/-! ### `demonstrate_merkle_tree_concept` (lines 114-165)

The demo hashes four file contents as blobs, concatenates mode/name/digest
entries into `tree` objects, then modifies `src/main.py` and recomputes the
affected digests via `str.replace` on the tree contents. -/

/-- Blob hash of `files["src/main.py"] = "print('Hello, World!')"`. -/
def main_py_hash : String := git_hash_object "blob" "print('Hello, World!')"

/-- Blob hash of `files["src/utils.py"] = "def helper(): return True"`. -/
def utils_py_hash : String := git_hash_object "blob" "def helper(): return True"

/-- Blob hash of `files["README.md"] = "# My Project"`. -/
def readme_hash : String := git_hash_object "blob" "# My Project"

/-- Blob hash of `files["LICENSE"] = "MIT License"`. -/
def license_hash : String := git_hash_object "blob" "MIT License"

/-- The `src` tree content: `"100644 main.py\0<hash>" + "100644 utils.py\0<hash>"`. -/
def src_tree_content : String :=
  "100644 main.py\x00" ++ main_py_hash ++ "100644 utils.py\x00" ++ utils_py_hash

/-- The `src` subtree digest. -/
def src_tree_hash : String := git_hash_object "tree" src_tree_content

/-- The root tree content:
`"040000 src\0<src digest>" + "100644 README.md\0<hash>" + "100644 LICENSE\0<hash>"`. -/
def root_tree_content : String :=
  "040000 src\x00" ++ src_tree_hash ++ "100644 README.md\x00" ++ readme_hash
    ++ "100644 LICENSE\x00" ++ license_hash

/-- The root tree digest. -/
def root_tree_hash : String := git_hash_object "tree" root_tree_content

/-- Blob hash of the modified `src/main.py` content. -/
def new_main_hash : String := git_hash_object "blob" "print('Hello, Modified World!')"

/-- `src_tree_content.replace(file_hashes['src/main.py'], new_main_hash)`. -/
def new_src_tree_content : String := pyStrReplace src_tree_content main_py_hash new_main_hash

/-- The recomputed `src` subtree digest. -/
def new_src_tree_hash : String := git_hash_object "tree" new_src_tree_content

/-- `root_tree_content.replace(src_tree_hash, new_src_tree_hash)`. -/
def new_root_tree_content : String := pyStrReplace root_tree_content src_tree_hash new_src_tree_hash

/-- The recomputed root tree digest. -/
def new_root_tree_hash : String := git_hash_object "tree" new_root_tree_content

/-! ### A model of Python's dynamic typing at the hashing boundary

`git_hash_object` has no type annotations; what it does on non-string
arguments is decided by Python's runtime.  `PyVal` models the argument
values relevant to the specification (strings, ints, bytes, None), and the
helpers below model the runtime semantics of the operations the function
body performs on them. -/

/-- A Python value passed to `git_hash_object`. -/
inductive PyVal where
  | str (s : String)
  | int (n : Int)
  | bytes (b : List Nat)
  | none
deriving DecidableEq

/-- A Python runtime error raised during evaluation. -/
inductive PyError where
  | typeError (msg : String)
deriving DecidableEq

/-- Python's `repr` of one byte inside a bytes literal. -/
def byteReprChar (n : Nat) : List Char :=
  if n = 92 then ['\\', '\\']
  else if n = 39 then ['\\', '\x27']
  else if n = 9 then ['\\', 't']
  else if n = 10 then ['\\', 'n']
  else if n = 13 then ['\\', 'r']
  else if 32 ≤ n && n < 127 then [Char.ofNat n]
  else ['\\', 'x', hexDigit (n / 16 % 16), hexDigit (n % 16)]

/-- Python's `repr` of a bytes object, in its default single-quoted form. -/
def bytesRepr (b : List Nat) : String :=
  "b" ++ "\x27" ++ String.mk (b.flatMap byteReprChar) ++ "\x27"

/-- The f-string interpolation `f"{v}"` of a Python value: `format(v)`.
Strings pass through; every other value is converted to its textual form —
no value is rejected. -/
def pyFormat : PyVal → String
  | .str s => s
  | .int n => toString n
  | .bytes b => bytesRepr b
  | .none => "None"

/-- Python's `len(v)`: defined for `str` (code points) and `bytes`;
a `TypeError` for ints and `None`. -/
def pyLen : PyVal → Except PyError Nat
  | .str s => .ok s.length
  | .bytes b => .ok b.length
  | .int _ => .error (.typeError "object of type int has no len()")
  | .none => .error (.typeError "object of type NoneType has no len()")

/-- Python's `header + content` where `header` is a `str`: concatenation
for a `str` right operand, a `TypeError` otherwise (including `bytes`). -/
def pyStrAdd (header : String) : PyVal → Except PyError String
  | .str s => .ok (header ++ s)
  | .bytes _ => .error (.typeError "can only concatenate str (not bytes) to str")
  | .int _ => .error (.typeError "can only concatenate str (not int) to str")
  | .none => .error (.typeError "can only concatenate str (not NoneType) to str")

/-- `git_hash_object` under Python's runtime semantics, for arbitrary
argument values: the f-string formats `obj_type` and calls `len(content)`,
then `header + content` concatenates, then the digest is computed. -/
def git_hash_object_dyn (obj_type content : PyVal) : Except PyError String :=
  match pyLen content with
  | .error e => .error e
  | .ok l =>
    let header := pyFormat obj_type ++ " " ++ toString l ++ "\x00"
    match pyStrAdd header content with
    | .error e => .error e
    | .ok full_data => .ok (sha1Hex (utf8Encode full_data))

/-- Modelled from the spec: the hash as §4.1 words it, with the header
carrying the BYTE length of the content — `"<type> <byte-length-of-content>\0"`
— and the digest computed over header bytes followed by content bytes. -/
def spec_hash_object (obj_type content : String) : String :=
  let contentBytes := utf8Encode content
  let headerBytes := utf8Encode (obj_type ++ " " ++ toString contentBytes.length ++ "\x00")
  sha1Hex (headerBytes ++ contentBytes)

/-- A character of a lowercase hexadecimal digest: a decimal digit or a
lowercase letter between a and f. -/
def isLowerHex (c : Char) : Bool :=
  (48 ≤ c.toNat && c.toNat ≤ 57) || (97 ≤ c.toNat && c.toNat ≤ 102)

/-! ### General lemmas about the embedding -/

/-- The corrupted string of the integrity demo is the literal with every
occurrence of `fibonacci` misspelled. -/
example : corrupted_content =
    "def fibonaci(n):\n    return n if n <= 1 else fibonaci(n-1) + fibonaci(n-2)" := by
  decide

/-- Every nibble prints as a lowercase hexadecimal character. -/
theorem hexDigit_isLowerHex (m : Nat) (h : m < 16) : isLowerHex (hexDigit m) = true := by
  interval_cases m <;> decide

/-- Every character printed for a word is a lowercase hexadecimal digit. -/
theorem wordHex_sound (w : Nat) : ∀ ch ∈ wordHex w, isLowerHex ch = true := by
  intro ch hch
  simp only [wordHex, List.mem_cons, List.not_mem_nil, or_false] at hch
  rcases hch with rfl | rfl | rfl | rfl | rfl | rfl | rfl | rfl <;>
    exact hexDigit_isLowerHex _ (Nat.mod_lt _ (by decide))

/-- A hex SHA-1 digest has exactly 40 characters. -/
theorem sha1Hex_length (msg : List Nat) : (sha1Hex msg).length = 40 := by
  unfold sha1Hex
  rcases sha1 msg with ⟨a, b, c, d, e⟩
  simp [String.length, wordHex]

/-- Every character of a hex SHA-1 digest is a lowercase hexadecimal digit. -/
theorem sha1Hex_chars (msg : List Nat) : ∀ ch ∈ (sha1Hex msg).data, isLowerHex ch = true := by
  unfold sha1Hex
  rcases sha1 msg with ⟨a, b, c, d, e⟩
  intro ch hch
  simp only [String.mk, List.mem_append] at hch
  rcases hch with (((h | h) | h) | h) | h <;> exact wordHex_sound _ _ h

/-- UTF-8 encoding distributes over string concatenation. -/
theorem utf8Encode_append (a b : String) :
    utf8Encode (a ++ b) = utf8Encode a ++ utf8Encode b := by
  simp [utf8Encode, String.data_append]

/-- An ASCII character encodes to a single UTF-8 byte. -/
theorem utf8EncodeChar_ascii (c : Char) (h : c.toNat < 128) :
    utf8EncodeChar c = [c.toNat] := by
  simp [utf8EncodeChar, h]

/-- A list of ASCII characters encodes to one UTF-8 byte per character. -/
theorem flatMap_utf8_ascii (l : List Char) (h : ∀ ch ∈ l, ch.toNat < 128) :
    (l.flatMap utf8EncodeChar).length = l.length := by
  induction l with
  | nil => rfl
  | cons a l ih =>
    have ha : a.toNat < 128 := h a (by simp)
    have hl : ∀ ch ∈ l, ch.toNat < 128 := fun ch hch => h ch (by simp [hch])
    simp [utf8EncodeChar_ascii a ha, ih hl]

/-- For an ASCII-only string, the character count equals the UTF-8 byte count. -/
theorem utf8Encode_ascii_length (c : String) (h : ∀ ch ∈ c.data, ch.toNat < 128) :
    (utf8Encode c).length = c.length :=
  flatMap_utf8_ascii c.data h

/-- String concatenation is associative. -/
theorem string_append_assoc (a b c : String) : a ++ b ++ c = a ++ (b ++ c) := by
  apply String.ext
  simp [String.data_append]

/-! ### Claim theorems -/

/-- C1 counterexample: the claim fails as stated.  For the content `"é"`
the header written by `git_hash_object` carries the character count 1,
not the UTF-8 byte length 2 that the specification's
`"<type> <byte-length-of-content>\0"` header prescribes, and the two
digests differ. -/
theorem c1_counterexample :
    git_hash_object "blob" "é" ≠ spec_hash_object "blob" "é" := by decide

/-- C1 (amended): for every type tag and every content whose characters
are all ASCII — in particular `"Hello, Git!"` — `git_hash_object`
returns exactly the lowercase hex SHA-1 digest of the byte buffer
`"<type> <byte-length-of-content>\0" ++ content`; and
`git_hash_object "blob" "Hello, Git!"` is the SHA-1 digest of the exact
byte sequence `"blob 11\0Hello, Git!"`. -/
theorem c1_header_composition (t c : String) (h : ∀ ch ∈ c.data, ch.toNat < 128) :
    git_hash_object t c = spec_hash_object t c ∧
    git_hash_object "blob" "Hello, Git!" = sha1Hex (utf8Encode "blob 11\x00Hello, Git!") := by
  constructor
  · unfold git_hash_object spec_hash_object
    dsimp only
    rw [utf8Encode_ascii_length c h, utf8Encode_append]
  · decide

/-- C1 witness: the amended claim applied at the spec's own example. -/
theorem c1_header_composition_witness :
    git_hash_object "blob" "Hello, Git!" = spec_hash_object "blob" "Hello, Git!" ∧
    git_hash_object "blob" "Hello, Git!" = sha1Hex (utf8Encode "blob 11\x00Hello, Git!") :=
  c1_header_composition "blob" "Hello, Git!" (by decide)

/-- C2 counterexample: the claim fails as stated.  It covers byte-sequence
content and asserts no failure, but bytes content raises a `TypeError` at
the `str + bytes` concatenation, so an error branch is reachable. -/
theorem c2_counterexample :
    git_hash_object_dyn (.str "blob") (.bytes [72, 105]) =
      .error (.typeError "can only concatenate str (not bytes) to str") := rfl

/-- C2 (amended): `git_hash_object` is pure and total on STRING inputs.
Under the model of Python's runtime semantics it reaches no error branch
for string content, and its result is exactly the mathematical function
of its two arguments.  (Byte-sequence content, by contrast, raises a
`TypeError`, per the counterexample above.) -/
theorem c2_pure_total (t c : String) :
    git_hash_object_dyn (.str t) (.str c) = .ok (git_hash_object t c) := rfl

/-- C3: the Merkle demo.  After changing only `src/main.py`'s content,
the recomputed `src` subtree digest and root digest both differ from the
originals, while the blob digests of the unchanged files
(`src/utils.py`, `README.md`, `LICENSE`) recompute to their old values. -/
theorem c3_merkle_propagation :
    new_src_tree_hash ≠ src_tree_hash ∧
    new_root_tree_hash ≠ root_tree_hash ∧
    git_hash_object "blob" "def helper(): return True" = utils_py_hash ∧
    git_hash_object "blob" "# My Project" = readme_hash ∧
    git_hash_object "blob" "MIT License" = license_hash :=
  ⟨by decide, by decide, rfl, rfl, rfl⟩

/-- C5: the empty content hashes to the well-known empty-blob constant. -/
theorem c5_empty_blob :
    git_hash_object "blob" "" = "e69de29bb2d1d6434b8b29ae775ad8c2e48c5391" := by decide

/-- C6: `verify_integrity` returns `true` exactly when the expected hash
equals `git_hash_object "blob" content`; it accepts every content paired
with its own hash, accepts the demo's original fibonacci string against
`original_hash`, and rejects the corrupted string against it. -/
theorem c6_verify_integrity :
    (∀ e c : String, verify_integrity e c = true ↔ e = git_hash_object "blob" c) ∧
    (∀ c : String, verify_integrity (git_hash_object "blob" c) c = true) ∧
    verify_integrity original_hash original_content = true ∧
    verify_integrity original_hash corrupted_content = false := by
  refine ⟨fun e c => ?_, fun c => ?_, ?_, ?_⟩
  · unfold verify_integrity
    rw [beq_iff_eq]
    exact eq_comm
  · simp [verify_integrity]
  · simp [verify_integrity, original_hash]
  · decide

/-- C7 counterexample: the claim fails as stated.  A non-string type tag
is not rejected: the integer tag `42` is silently formatted into the
header by the f-string and a digest is produced. -/
theorem c7_counterexample :
    git_hash_object_dyn (.int 42) (.str "abc") = .ok (git_hash_object "42" "abc") := rfl

/-- C7 (amended): content of a type without `len` (ints, `None`) fails
fast with a `TypeError` from `len`, and `bytes` content fails at the
`str + bytes` concatenation; but a non-string type tag does not fail —
it is silently coerced into the header via f-string formatting. -/
theorem c7_malformed_inputs :
    (∀ (t : PyVal) (n : Int), git_hash_object_dyn t (.int n) =
        .error (.typeError "object of type int has no len()")) ∧
    (∀ t : PyVal, git_hash_object_dyn t .none =
        .error (.typeError "object of type NoneType has no len()")) ∧
    (∀ (t : PyVal) (b : List Nat), git_hash_object_dyn t (.bytes b) =
        .error (.typeError "can only concatenate str (not bytes) to str")) ∧
    (∀ (n : Int) (s : String), git_hash_object_dyn (.int n) (.str s) =
        .ok (git_hash_object (toString n) s)) :=
  ⟨fun _ _ => rfl, fun _ => rfl, fun _ _ => rfl, fun _ _ => rfl⟩

/-- C8: two-run determinism.  Two invocations of `git_hash_object` on
equal arguments — and nothing else — return equal digest strings. -/
theorem c8_determinism (t1 c1 t2 c2 : String) (ht : t1 = t2) (hc : c1 = c2) :
    git_hash_object t1 c1 = git_hash_object t2 c2 := by rw [ht, hc]

/-- C8 witness: the demo's own determinism check on `"Hello, Git!"`. -/
theorem c8_determinism_witness :
    git_hash_object "blob" "Hello, Git!" = git_hash_object "blob" "Hello, Git!" :=
  c8_determinism "blob" "Hello, Git!" "blob" "Hello, Git!" rfl rfl

/-- C9: for every type tag and content, the returned digest has exactly
40 characters, each a lowercase hexadecimal digit. -/
theorem c9_digest_format (t c : String) :
    (git_hash_object t c).length = 40 ∧
    ∀ ch ∈ (git_hash_object t c).data, isLowerHex ch = true :=
  ⟨sha1Hex_length _, sha1Hex_chars _⟩

/-- C10: the header's length field is the character count of the
content, UTF-8 encoding being applied only afterwards to the whole
buffer: for ASCII-only content this equals the UTF-8 byte length, while
for `"é"` the field (1) is strictly smaller than the byte length (2). -/
theorem c10_length_field (t c : String) (h : ∀ ch ∈ c.data, ch.toNat < 128) :
    git_hash_object t c =
      sha1Hex (utf8Encode (t ++ " " ++ toString c.length ++ "\x00" ++ c)) ∧
    c.length = (utf8Encode c).length ∧
    "é".length < (utf8Encode "é").length := by
  exact ⟨rfl, (utf8Encode_ascii_length c h).symm, by decide⟩

/-- C10 witness: the claim applied at the ASCII content `"Hello, Git!"`. -/
theorem c10_length_field_witness :
    git_hash_object "blob" "Hello, Git!" =
      sha1Hex (utf8Encode ("blob" ++ " " ++ toString "Hello, Git!".length ++ "\x00"
        ++ "Hello, Git!")) ∧
    "Hello, Git!".length = (utf8Encode "Hello, Git!").length ∧
    "é".length < (utf8Encode "é").length :=
  c10_length_field "blob" "Hello, Git!" (by decide)

/-- The 8 contents of the collision demo, for the two 20-hex-character
strings drawn from the entropy source. -/
def collision_contents (h1 h2 : String) : List String :=
  [ "Version 1.0.0", "Version 1.0.1", "Version 1.1.0", "Version 2.0.0",
    "Random content " ++ h1, "Another random " ++ h2,
    "The quick brown fox jumps over the lazy dog",
    "The quick brown fox jumps over the lazy dog." ]

/-- For one concrete draw of the two entropy strings, the collision
demo's 8 contents hash to 8 pairwise distinct digests, so the mapping
keyed by digest has 8 entries.  (The claim for every possible draw is a
collision-resistance property of SHA-1 and is out of computational
reach.) -/
theorem collision_demo_sample_distinct :
    ((collision_contents "c61a1257f9aa95a4f8c9" "0b7f22d1e4a35c68d90e").map
      (git_hash_object "blob")).Nodup := by decide
